import Mathlib

set_option maxRecDepth 8000

/-!
Shallow embedding of the simulation core of the flappy-kat game
(src/src/game.cpp).  C++ floats are modelled as exact rationals and C++
ints as Lean integers.  External services (audio, rendering, raw input,
the window, the random generator, persistence) are abstracted: per-frame
input queries are collected in an `Input` record, and raylib's
GetRandomValue is a function `rand : ℚ → ℚ → ℚ` supplied by the
environment, constrained in theorems by its documented contract
(a result between the two bounds).  Sound and texture calls mutate no
modelled state and are dropped; `musicPlaying`/`musicManuallyDisabled`
are kept because the code branches on them.
-/

/-- An obstacle ("pipe"): horizontal position, vertical gap center, and
the scored flag, exactly the `pipes` element type used by game.cpp. -/
structure Pipe where
  x : ℚ
  gapCenter : ℚ
  scored : Bool
deriving DecidableEq

/-- Per-frame environment: raw input queries and host window data that
Game::Update and its callees read through raylib. -/
structure Input where
  windowShouldClose : Bool
  escPressed : Bool
  enterPressed : Bool
  enterDown : Bool
  altDown : Bool
  yPressed : Bool
  nPressed : Bool
  pPressed : Bool
  mPressed : Bool
  spacePressed : Bool
  upPressed : Bool
  wPressed : Bool
  tap : Bool
  tapInTitleArea : Bool
  windowFocused : Bool
  isMobile : Bool
  screenScale : ℚ
  rand : ℚ → ℚ → ℚ

/-- The mutable state of the Game object (the fields of class Game that
the simulation reads or writes).  Fields that are constants in
globals.h (gravity defaults, pipe speed increase, max speed, the max
gap height difference, delays) are carried in the state so that no
numeric value has to be invented for them.
`playerCollisionWidthFactor`/`playerCollisionHeightFactor` model the
source fields holding the collision-box width and height scale values. -/
structure Game where
  width : ℚ
  height : ℚ
  playerSize : ℚ
  playerX : ℚ
  playerY : ℚ
  playerVelocity : ℚ
  gravity : ℚ
  jumpForce : ℚ
  pipeWidth : ℚ
  pipeGap : ℚ
  pipeSpeed : ℚ
  basePipeSpeed : ℚ
  pipeSpawnInterval : ℚ
  pipeSpawnTimer : ℚ
  initialPipeDistance : ℚ
  pipeSpeedIncrease : ℚ
  maxSpeed : ℚ
  maxGapHeightDifference : ℚ
  speedLevel : ℤ
  score : ℤ
  highScore : ℤ
  playerCollisionWidthFactor : ℚ
  playerCollisionHeightFactor : ℚ
  firstTimeGameStart : Bool
  paused : Bool
  lostWindowFocus : Bool
  isInExitMenu : Bool
  gameOver : Bool
  exitWindowRequested : Bool
  exitWindow : Bool
  fullscreen : Bool
  musicPlaying : Bool
  musicManuallyDisabled : Bool
  gameOverDelayTimer : ℚ
  gameOverDelayDuration : ℚ
  playerEyesClosedTimer : ℚ
  playerEyesClosedDuration : ℚ
  backgroundScrollX : ℚ
  backgroundScrollSpeed : ℚ
  backgroundTextureWidth : ℚ
  screenScale : ℚ
  pipes : List Pipe
deriving DecidableEq

/-- Game constructor (game.cpp lines 20-86), with the globals.h
constants and the loaded high score as parameters.  Only the modelled
state fields appear; asset loading has no state effect here. -/
def mkGame (width height defaultGravity defaultJumpForce defaultPipeWidth defaultPipeGap
    defaultPipeSpeed defaultPipeSpawnInterval pipeSpeedIncrease maxSpeed
    maxGapHeightDifference gameOverDelayDuration playerEyesClosedDuration
    backgroundTextureWidth screenScale : ℚ) (loadedHighScore : ℤ) : Game :=
  { width := width
    height := height
    playerSize := 80
    playerX := width / 4
    playerY := height / 2
    playerVelocity := 0
    gravity := defaultGravity
    jumpForce := defaultJumpForce
    pipeWidth := defaultPipeWidth
    pipeGap := defaultPipeGap
    pipeSpeed := defaultPipeSpeed
    basePipeSpeed := defaultPipeSpeed
    pipeSpawnInterval := defaultPipeSpawnInterval
    pipeSpawnTimer := defaultPipeSpawnInterval
    initialPipeDistance := defaultPipeSpeed * defaultPipeSpawnInterval
    pipeSpeedIncrease := pipeSpeedIncrease
    maxSpeed := maxSpeed
    maxGapHeightDifference := maxGapHeightDifference
    speedLevel := 0
    score := 0
    highScore := loadedHighScore
    playerCollisionWidthFactor := 7 / 10
    playerCollisionHeightFactor := 11 / 20
    firstTimeGameStart := true
    paused := false
    lostWindowFocus := false
    isInExitMenu := false
    gameOver := false
    exitWindowRequested := false
    exitWindow := false
    fullscreen := false
    musicPlaying := false
    musicManuallyDisabled := false
    gameOverDelayTimer := 0
    gameOverDelayDuration := gameOverDelayDuration
    playerEyesClosedTimer := 0
    playerEyesClosedDuration := playerEyesClosedDuration
    backgroundScrollX := 0
    backgroundScrollSpeed := defaultPipeSpeed * (1 / 5)
    backgroundTextureWidth := backgroundTextureWidth
    screenScale := screenScale
    pipes := [] }

/-- Width of the player's collision box (playerSize times the width
scale factor), as computed at game.cpp line 178. -/
def Game.collisionBoxWidth (g : Game) : ℚ :=
  g.playerSize * g.playerCollisionWidthFactor

/-- Height of the player's collision box, game.cpp line 179. -/
def Game.collisionBoxHeight (g : Game) : ℚ :=
  g.playerSize * g.playerCollisionHeightFactor

/-- The obstacle collision test of game.cpp lines 238-241: the player's
box must overlap the pipe horizontally (both strict comparisons) and
stick out of the gap band vertically. -/
def checkObstacleCollision (playerX playerY cbw cbh pipeWidth pipeGap : ℚ)
    (p : Pipe) : Prop :=
  (playerX + cbw / 2 > p.x ∧ playerX - cbw / 2 < p.x + pipeWidth) ∧
  (playerY - cbh / 2 < p.gapCenter - pipeGap / 2 ∨
   playerY + cbh / 2 > p.gapCenter + pipeGap / 2)

instance (playerX playerY cbw cbh pipeWidth pipeGap : ℚ) (p : Pipe) :
    Decidable (checkObstacleCollision playerX playerY cbw cbh pipeWidth pipeGap p) := by
  unfold checkObstacleCollision
  infer_instance

/-- Game::InitGame (lines 108-116): clears the four in-game mode flags
and refreshes the letterbox scale from the window. -/
def Game.InitGame (g : Game) (scale : ℚ) : Game :=
  { g with isInExitMenu := false, paused := false, lostWindowFocus := false,
           gameOver := false, screenScale := scale }

/-- Game::Reset (lines 118-139): restores the player, clears the pipes,
resets score/speed, and restarts music unless manually disabled. -/
def Game.Reset (g : Game) (scale : ℚ) : Game :=
  let g1 := g.InitGame scale
  let g2 := { g1 with
    playerX := g1.width / 4
    playerY := g1.height / 2
    playerVelocity := 0
    pipes := ([] : List Pipe)
    pipeSpawnTimer := 0
    pipeSpawnInterval := 2
    score := 0
    speedLevel := 0
    pipeSpeed := g1.basePipeSpeed }
  if g2.musicManuallyDisabled then g2 else { g2 with musicPlaying := true }

/-- Alt+Enter fullscreen toggle inside Game::UpdateUI (lines 328-340). -/
def Game.uiFullscreen (g : Game) (inp : Input) : Game :=
  if inp.enterPressed && inp.altDown then { g with fullscreen := !g.fullscreen } else g

/-- First-start dismissal inside Game::UpdateUI (lines 343-358). -/
def Game.uiFirstStart (g : Game) (inp : Input) : Game :=
  if g.firstTimeGameStart then
    if inp.isMobile then
      if inp.tap then { g with firstTimeGameStart := false, musicPlaying := true } else g
    else if inp.enterDown then { g with firstTimeGameStart := false, musicPlaying := true }
    else g
  else g

/-- Exit-confirmation menu inside Game::UpdateUI (lines 360-371). -/
def Game.uiExitMenu (g : Game) (inp : Input) : Game :=
  if g.exitWindowRequested then
    if inp.yPressed then { g with exitWindow := true }
    else if inp.nPressed || inp.escPressed then
      { g with exitWindowRequested := false, isInExitMenu := false }
    else g
  else g

/-- Level-triggered focus tracking inside Game::UpdateUI (lines 373-380). -/
def Game.uiFocus (g : Game) (inp : Input) : Game :=
  { g with lostWindowFocus := !inp.windowFocused }

/-- P-key pause toggle inside Game::UpdateUI (lines 383-389, desktop build). -/
def Game.uiPauseToggle (g : Game) (inp : Input) : Game :=
  if !g.exitWindowRequested && !g.lostWindowFocus && !g.gameOver && inp.pPressed then
    { g with paused := !g.paused }
  else g

/-- Mobile tap pause/unpause inside Game::UpdateUI (lines 392-416); the
returned Bool is the skip-frame result. -/
def Game.uiMobilePause (g : Game) (inp : Input) : Game × Bool :=
  if inp.isMobile && !g.firstTimeGameStart && !g.gameOver && !g.exitWindowRequested then
    if !g.paused && inp.tap then
      if inp.tapInTitleArea then ({ g with paused := true }, true) else (g, false)
    else if g.paused && inp.tap then ({ g with paused := false }, true)
    else (g, false)
  else (g, false)

/-- Game::UpdateUI (lines 318-418, desktop compilation): the window
close / Escape branch returns immediately, otherwise the blocks run in
source order.  Returns the state plus the skip-frame flag. -/
def Game.UpdateUI (g : Game) (inp : Input) : Game × Bool :=
  if inp.windowShouldClose || (inp.escPressed && !g.exitWindowRequested) then
    ({ g with exitWindowRequested := true, isInExitMenu := true }, false)
  else
    Game.uiMobilePause
      (Game.uiPauseToggle
        (Game.uiFocus
          (Game.uiExitMenu (Game.uiFirstStart (Game.uiFullscreen g inp) inp) inp) inp) inp) inp

/-- Game::HandleInput (lines 290-316): flap impulse while running, and
the M-key music toggle with its sticky manually-disabled flag. -/
def Game.HandleInput (g : Game) (inp : Input) : Game :=
  let g1 :=
    if (!g.paused && !g.gameOver && !g.firstTimeGameStart && !g.isInExitMenu
        && !g.lostWindowFocus)
       && (inp.spacePressed || inp.upPressed || inp.wPressed
           || (inp.isMobile && inp.tap)) then
      { g with playerVelocity := g.jumpForce,
               playerEyesClosedTimer := g.playerEyesClosedDuration }
    else g
  if inp.mPressed then
    if g1.musicPlaying then
      { g1 with musicPlaying := false, musicManuallyDisabled := true }
    else
      { g1 with musicPlaying := true, musicManuallyDisabled := false }
  else g1

/-- Game::UpdatePipeSpeed (lines 706-714): linear speed increase clamped
to maxSpeed, spawn interval recomputed to keep the pipe distance
constant, scroll speed pinned to 20 percent of pipe speed. -/
def Game.UpdatePipeSpeed (g : Game) (dt : ℚ) : Game :=
  let s := g.pipeSpeed + g.pipeSpeedIncrease * dt
  let s2 := if s > g.maxSpeed then g.maxSpeed else s
  { g with pipeSpeed := s2,
           pipeSpawnInterval := g.initialPipeDistance / s2,
           backgroundScrollSpeed := s2 * (1 / 5) }

/-- Player physics of game.cpp lines 174-175: explicit Euler step. -/
def Game.physicsStep (g : Game) (dt : ℚ) : Game :=
  let v := g.playerVelocity + g.gravity * dt
  { g with playerVelocity := v, playerY := g.playerY + v * dt }

/-- Screen boundary collision test, game.cpp line 182. -/
def Game.boundaryCollision (g : Game) : Prop :=
  g.playerY - g.collisionBoxHeight / 2 < 0 ∨ g.playerY + g.collisionBoxHeight / 2 > g.height

instance (g : Game) : Decidable g.boundaryCollision := by
  unfold Game.boundaryCollision
  infer_instance

/-- The state mutations shared by both collision branches (lines
183-193 and 242-252): set game over, arm the restart delay, and raise
the high score if the score beats it. -/
def Game.applyHit (g : Game) : Game :=
  { g with gameOver := true,
           gameOverDelayTimer := g.gameOverDelayDuration,
           highScore := if g.score > g.highScore then g.score else g.highScore }

/-- Boundary collision handling, game.cpp lines 182-194. -/
def Game.checkBoundaryStep (g : Game) : Game :=
  if g.boundaryCollision then g.applyHit else g

/-- Choice of the next gap center, game.cpp lines 201-216: screen
midpoint for the first pipe, otherwise a random value in the clamped
window around the previous pipe's gap center. -/
def newGapCenter (pipes : List Pipe) (height pipeGap maxGapDiff : ℚ)
    (rand : ℚ → ℚ → ℚ) : ℚ :=
  match pipes.getLast? with
  | none => height / 2
  | some prev =>
      rand (max (pipeGap / 2) (prev.gapCenter - maxGapDiff))
           (min (height - pipeGap / 2) (prev.gapCenter + maxGapDiff))

/-- Pipe spawning, game.cpp lines 196-219: accumulate the timer, and on
expiry reset it to zero and append a pipe at the right screen edge. -/
def Game.spawnStep (g : Game) (dt : ℚ) (rand : ℚ → ℚ → ℚ) : Game :=
  let g1 := { g with pipeSpawnTimer := g.pipeSpawnTimer + dt }
  if g1.pipeSpawnTimer ≥ g1.pipeSpawnInterval then
    { g1 with pipeSpawnTimer := 0,
              pipes := g1.pipes ++
                [⟨g1.width,
                  newGapCenter g1.pipes g1.height g1.pipeGap g1.maxGapHeightDifference rand,
                  false⟩] }
  else g1

/-- Per-pipe scoring check, game.cpp lines 225-233: the pipe is assumed
already moved; passing an unscored pipe bumps the score, marks the
pipe, and raises the high score when beaten. -/
def Game.scorePhase (g : Game) (p : Pipe) : Game × Pipe :=
  if g.playerX > p.x + g.pipeWidth ∧ p.scored = false then
    ({ g with score := g.score + 1,
              highScore := if g.score + 1 > g.highScore then g.score + 1 else g.highScore },
     { p with scored := true })
  else (g, p)

/-- Per-pipe collision check, game.cpp lines 236-255, guarded by the
gameOver flag as in the source. -/
def Game.collidePhase (g : Game) (p : Pipe) : Game :=
  if g.gameOver = false ∧
     checkObstacleCollision g.playerX g.playerY g.collisionBoxWidth g.collisionBoxHeight
       g.pipeWidth g.pipeGap p then
    g.applyHit
  else g

/-- One iteration of the pipe loop body (game.cpp lines 222-256): move
the pipe left, run the scoring check, then the collision check. -/
def Game.pipeFrameStep (g : Game) (dt : ℚ) (p : Pipe) : Game × Pipe :=
  let p1 : Pipe := { p with x := p.x - g.pipeSpeed * dt }
  let gp := g.scorePhase p1
  (Game.collidePhase gp.1 gp.2, gp.2)

/-- The whole pipe loop, threading the state through the pipes in
order, as the range-for of game.cpp lines 222-256 does. -/
def Game.movePipesLoop (g : Game) (dt : ℚ) : List Pipe → Game × List Pipe
  | [] => (g, [])
  | p :: rest =>
      let gp := g.pipeFrameStep dt p
      let grest := Game.movePipesLoop gp.1 dt rest
      (grest.1, gp.2 :: grest.2)

/-- Off-screen pipe removal, game.cpp lines 259-261. -/
def Game.prunePipes (g : Game) : Game :=
  { g with pipes := g.pipes.filter (fun p => decide ¬(p.x < -g.pipeWidth)) }

/-- Eyes-closed animation timer decay, game.cpp lines 263-266. -/
def Game.eyesStep (g : Game) (dt : ℚ) : Game :=
  if g.playerEyesClosedTimer > 0 then
    let t := g.playerEyesClosedTimer - dt
    { g with playerEyesClosedTimer := if t < 0 then 0 else t }
  else g

/-- The running predicate of game.cpp line 154: all five blocking flags
are clear. -/
def Game.runningState (g : Game) : Bool :=
  !g.firstTimeGameStart && !g.paused && !g.lostWindowFocus && !g.isInExitMenu && !g.gameOver

/-- Background scrolling, game.cpp lines 157-161. -/
def Game.scrollStep (g : Game) (dt : ℚ) : Game :=
  let sx := g.backgroundScrollX + g.backgroundScrollSpeed * dt
  { g with backgroundScrollX :=
      if sx ≥ g.backgroundTextureWidth then sx - g.backgroundTextureWidth else sx }

/-- The running-only simulation block of Game::Update (lines 167-267). -/
def Game.simStep (g : Game) (inp : Input) (dt : ℚ) : Game :=
  let g1 := g.HandleInput inp
  let g2 := g1.UpdatePipeSpeed dt
  let g3 := g2.physicsStep dt
  let g4 := g3.checkBoundaryStep
  let g5 := g4.spawnStep dt inp.rand
  let mp := g5.movePipesLoop dt g5.pipes
  let g6 := { mp.1 with pipes := mp.2 }
  let g7 := g6.prunePipes
  g7.eyesStep dt

/-- Game-over restart handling, game.cpp lines 269-287: run down the
delay timer (clamped at zero) and allow restart only once it reaches
zero, via tap on mobile or Enter on desktop. -/
def Game.gameOverRestart (g : Game) (inp : Input) (dt : ℚ) : Game :=
  if g.gameOver then
    let g1 :=
      if g.gameOverDelayTimer > 0 then
        { g with gameOverDelayTimer :=
            if g.gameOverDelayTimer - dt < 0 then 0 else g.gameOverDelayTimer - dt }
      else g
    if g1.gameOverDelayTimer ≤ 0 then
      if inp.isMobile then (if inp.tap then g1.Reset inp.screenScale else g1)
      else if inp.enterPressed then g1.Reset inp.screenScale else g1
    else g1
  else g

/-- Game::Update (lines 141-288): dt == 0 is a full no-op; then the UI
pass may consume the frame; the sim block runs only when running; the
game-over restart branch runs last. -/
def Game.Update (g : Game) (inp : Input) (dt : ℚ) : Game :=
  if dt = 0 then g
  else
    let g1 := { g with screenScale := inp.screenScale }
    let ui := g1.UpdateUI inp
    if ui.2 then ui.1
    else
      let g2 := ui.1
      let run := g2.runningState
      let g3 := if run then g2.scrollStep dt else g2
      let g4 := if run then g3.simStep inp dt else g3
      g4.gameOverRestart inp dt

/-- Iterated difficulty ticks: a run's sequence of UpdatePipeSpeed
calls with the per-frame dt values. -/
def Game.tickSeq (g : Game) (dts : List ℚ) : Game :=
  dts.foldl Game.UpdatePipeSpeed g

/-- A concrete mid-run game state used to instantiate theorems. -/
def sampleGame : Game :=
  { width := 800
    height := 600
    playerSize := 80
    playerX := 200
    playerY := 300
    playerVelocity := 0
    gravity := 10
    jumpForce := -20
    pipeWidth := 100
    pipeGap := 200
    pipeSpeed := 5
    basePipeSpeed := 5
    pipeSpawnInterval := 2
    pipeSpawnTimer := 0
    initialPipeDistance := 10
    pipeSpeedIncrease := 1
    maxSpeed := 12
    maxGapHeightDifference := 150
    speedLevel := 0
    score := 3
    highScore := 7
    playerCollisionWidthFactor := 7 / 10
    playerCollisionHeightFactor := 11 / 20
    firstTimeGameStart := false
    paused := false
    lostWindowFocus := false
    isInExitMenu := false
    gameOver := false
    exitWindowRequested := false
    exitWindow := false
    fullscreen := false
    musicPlaying := false
    musicManuallyDisabled := false
    gameOverDelayTimer := 0
    gameOverDelayDuration := 2
    playerEyesClosedTimer := 0
    playerEyesClosedDuration := 1 / 5
    backgroundScrollX := 0
    backgroundScrollSpeed := 1
    backgroundTextureWidth := 1600
    screenScale := 1
    pipes := [] }

/-- A frame input with no keys pressed and the window focused. -/
def idleInput : Input :=
  { windowShouldClose := false
    escPressed := false
    enterPressed := false
    enterDown := false
    altDown := false
    yPressed := false
    nPressed := false
    pPressed := false
    mPressed := false
    spacePressed := false
    upPressed := false
    wPressed := false
    tap := false
    tapInTitleArea := false
    windowFocused := true
    isMobile := false
    screenScale := 1
    rand := fun lo _ => lo }

/-- The sample state, paused. -/
def pausedGame : Game := { sampleGame with paused := true }

/-- A fresh game as the constructor builds it (first-start flag set). -/
def freshGame : Game := mkGame 800 600 10 (-20) 100 200 5 2 1 12 150 2 (1 / 5) 1600 1 0

/-- A frame input that only presses the pause key. -/
def unpauseInput : Input := { idleInput with pPressed := true }

/-- A frame input that only presses the music-toggle key. -/
def mInput : Input := { idleInput with mPressed := true }

/-- The simulation-state projection: the fields that must stay fixed
while the game is not in the Running state (plus high score and the
game-over flag, which the same freeze argument needs). -/
def Game.frozenFields (g : Game) : ℚ × ℚ × ℚ × List Pipe × ℤ × ℚ × ℤ × Bool :=
  (g.playerX, g.playerY, g.playerVelocity, g.pipes, g.score, g.pipeSpeed,
   g.highScore, g.gameOver)

/-- The score/high-score invariant: the score is nonnegative and never
above the stored high score. -/
def scoreInv (g : Game) : Prop := 0 ≤ g.score ∧ g.score ≤ g.highScore

/-- Claim C1: checkObstacleCollision holds iff the collision box's
horizontal extent (as a half-open interval) meets the obstacle's
half-open interval from x to x plus width, and the box's vertical
extent is not contained in the gap band; in particular a box fully
inside the band never collides, and without horizontal overlap there is
no collision regardless of vertical position. -/
theorem c1_obstacle_collision_iff (px py cbw cbh pw pg : ℚ) (p : Pipe)
    (hcbw : 0 < cbw) (hpw : 0 < pw) (hcbh : 0 ≤ cbh) :
    (checkObstacleCollision px py cbw cbh pw pg p ↔
      ((Set.Ico (px - cbw / 2) (px + cbw / 2) ∩ Set.Ico p.x (p.x + pw)).Nonempty ∧
       ¬ Set.Icc (py - cbh / 2) (py + cbh / 2) ⊆
           Set.Icc (p.gapCenter - pg / 2) (p.gapCenter + pg / 2))) ∧
    (Set.Icc (py - cbh / 2) (py + cbh / 2) ⊆
        Set.Icc (p.gapCenter - pg / 2) (p.gapCenter + pg / 2) →
      ¬ checkObstacleCollision px py cbw cbh pw pg p) ∧
    (¬ (Set.Ico (px - cbw / 2) (px + cbw / 2) ∩ Set.Ico p.x (p.x + pw)).Nonempty →
      ¬ checkObstacleCollision px py cbw cbh pw pg p) := by
  have hbox : py - cbh / 2 ≤ py + cbh / 2 := by linarith
  have hinter :
      (Set.Ico (px - cbw / 2) (px + cbw / 2) ∩ Set.Ico p.x (p.x + pw)).Nonempty ↔
        (px + cbw / 2 > p.x ∧ px - cbw / 2 < p.x + pw) := by
    rw [Set.Ico_inter_Ico, Set.nonempty_Ico, max_lt_iff, lt_min_iff, lt_min_iff]
    constructor
    · rintro ⟨⟨_, had⟩, ⟨hcb, _⟩⟩
      exact ⟨hcb, had⟩
    · rintro ⟨h1, h2⟩
      exact ⟨⟨by linarith, h2⟩, ⟨h1, by linarith⟩⟩
  have hsub :
      Set.Icc (py - cbh / 2) (py + cbh / 2) ⊆
          Set.Icc (p.gapCenter - pg / 2) (p.gapCenter + pg / 2) ↔
        (p.gapCenter - pg / 2 ≤ py - cbh / 2 ∧ py + cbh / 2 ≤ p.gapCenter + pg / 2) :=
    Set.Icc_subset_Icc_iff hbox
  have hmain : checkObstacleCollision px py cbw cbh pw pg p ↔
      ((Set.Ico (px - cbw / 2) (px + cbw / 2) ∩ Set.Ico p.x (p.x + pw)).Nonempty ∧
       ¬ Set.Icc (py - cbh / 2) (py + cbh / 2) ⊆
           Set.Icc (p.gapCenter - pg / 2) (p.gapCenter + pg / 2)) := by
    rw [checkObstacleCollision, hinter, hsub, not_and_or, not_le, not_le]
  refine ⟨hmain, ?_, ?_⟩
  · intro hin hcol
    exact (hmain.mp hcol).2 hin
  · intro hno hcol
    exact hno (hmain.mp hcol).1

/-- Witness for C1: a pipe entirely to the right of the player's box
cannot collide, whatever the vertical positions are. -/
theorem c1_obstacle_collision_iff_witness :
    ¬ checkObstacleCollision 0 0 2 2 4 10 ⟨6, 0, false⟩ :=
  (c1_obstacle_collision_iff 0 0 2 2 4 10 ⟨6, 0, false⟩ (by norm_num) (by norm_num)
      (by norm_num)).2.2
    (by
      rw [Set.Ico_inter_Ico]
      simp [Set.nonempty_Ico])

/-- Claim C8: a per-frame update with dt equal to zero returns the
state unchanged in every field. -/
theorem c8_dt_zero_noop (g : Game) (inp : Input) : g.Update inp 0 = g := by
  simp [Game.Update]

/-- UpdatePipeSpeed never rewrites the tuning constants nor the stored
initial pipe distance. -/
theorem updatePipeSpeed_const (g : Game) (dt : ℚ) :
    (g.UpdatePipeSpeed dt).pipeSpeedIncrease = g.pipeSpeedIncrease ∧
    (g.UpdatePipeSpeed dt).maxSpeed = g.maxSpeed ∧
    (g.UpdatePipeSpeed dt).initialPipeDistance = g.initialPipeDistance :=
  ⟨rfl, rfl, rfl⟩

/-- Claim C3: a difficulty tick with nonnegative dt and rate never
decreases pipeSpeed (from below maxSpeed) and never pushes it above
maxSpeed, and the same holds across any sequence of such ticks. -/
theorem c3_speed_monotone_clamped :
    (∀ (g : Game) (dt : ℚ), 0 ≤ dt → 0 ≤ g.pipeSpeedIncrease → g.pipeSpeed ≤ g.maxSpeed →
       g.pipeSpeed ≤ (g.UpdatePipeSpeed dt).pipeSpeed ∧
       (g.UpdatePipeSpeed dt).pipeSpeed ≤ g.maxSpeed) ∧
    (∀ (g : Game) (dts : List ℚ), (∀ d ∈ dts, 0 ≤ d) → 0 ≤ g.pipeSpeedIncrease →
       g.pipeSpeed ≤ g.maxSpeed →
       g.pipeSpeed ≤ (g.tickSeq dts).pipeSpeed ∧ (g.tickSeq dts).pipeSpeed ≤ g.maxSpeed) := by
  have hstep : ∀ (g : Game) (dt : ℚ), 0 ≤ dt → 0 ≤ g.pipeSpeedIncrease →
      g.pipeSpeed ≤ g.maxSpeed →
      g.pipeSpeed ≤ (g.UpdatePipeSpeed dt).pipeSpeed ∧
      (g.UpdatePipeSpeed dt).pipeSpeed ≤ g.maxSpeed := by
    intro g dt hdt hrate hle
    have hprod : 0 ≤ g.pipeSpeedIncrease * dt := mul_nonneg hrate hdt
    unfold Game.UpdatePipeSpeed
    dsimp only
    split_ifs with h
    · exact ⟨hle, le_refl _⟩
    · exact ⟨by linarith, by linarith [not_lt.mp h]⟩
  refine ⟨hstep, ?_⟩
  intro g dts
  induction dts generalizing g with
  | nil => intro _ _ hle; exact ⟨le_refl _, hle⟩
  | cons d rest ih =>
      intro hmem hrate hle
      have h1 := hstep g d (hmem d (List.mem_cons_self d rest)) hrate hle
      have hconst := updatePipeSpeed_const g d
      have h2 := ih (g.UpdatePipeSpeed d)
        (fun x hx => hmem x (List.mem_cons_of_mem d hx))
        (by rw [hconst.1]; exact hrate)
        (by rw [hconst.2.1]; exact h1.2)
      have heq : Game.tickSeq g (d :: rest) = Game.tickSeq (g.UpdatePipeSpeed d) rest := rfl
      rw [heq]
      refine ⟨le_trans h1.1 h2.1, ?_⟩
      calc (Game.tickSeq (g.UpdatePipeSpeed d) rest).pipeSpeed
          ≤ (g.UpdatePipeSpeed d).maxSpeed := h2.2
        _ = g.maxSpeed := hconst.2.1

/-- Witness for C3 at the sample state: one tick of one second. -/
theorem c3_speed_monotone_clamped_witness :
    sampleGame.pipeSpeed ≤ (sampleGame.UpdatePipeSpeed 1).pipeSpeed ∧
    (sampleGame.UpdatePipeSpeed 1).pipeSpeed ≤ sampleGame.maxSpeed :=
  c3_speed_monotone_clamped.1 sampleGame 1 (by norm_num) (by decide) (by decide)

/-- Claim C5: after any difficulty tick the spawn interval is the fixed
initial pipe distance divided by the new speed, so interval times speed
is the run's initial spawn distance; the scroll speed is always one
fifth of the current pipe speed; and the constructor fixes the initial
pipe distance as initial speed times initial spawn interval. -/
theorem c5_spawn_distance_invariant :
    (∀ (g : Game) (dt : ℚ), 0 ≤ dt → 0 ≤ g.pipeSpeedIncrease → 0 < g.pipeSpeed →
       0 < g.maxSpeed →
       (g.UpdatePipeSpeed dt).pipeSpawnInterval =
           g.initialPipeDistance / (g.UpdatePipeSpeed dt).pipeSpeed ∧
       (g.UpdatePipeSpeed dt).pipeSpawnInterval * (g.UpdatePipeSpeed dt).pipeSpeed =
           g.initialPipeDistance ∧
       (g.UpdatePipeSpeed dt).initialPipeDistance = g.initialPipeDistance ∧
       (g.UpdatePipeSpeed dt).backgroundScrollSpeed =
           (g.UpdatePipeSpeed dt).pipeSpeed * (1 / 5)) ∧
    (∀ (w h dg dj dpw dpg dps dpsi rate ms mghd godd pecd btw sc : ℚ) (hs : ℤ),
       (mkGame w h dg dj dpw dpg dps dpsi rate ms mghd godd pecd btw sc hs).initialPipeDistance
         = dps * dpsi) := by
  constructor
  · intro g dt hdt hrate hpos hmax
    have hprod : 0 ≤ g.pipeSpeedIncrease * dt := mul_nonneg hrate hdt
    have hpos2 : 0 < (g.UpdatePipeSpeed dt).pipeSpeed := by
      unfold Game.UpdatePipeSpeed
      dsimp only
      split_ifs with h
      · exact hmax
      · linarith
    refine ⟨rfl, ?_, rfl, rfl⟩
    have hne : (g.UpdatePipeSpeed dt).pipeSpeed ≠ 0 := ne_of_gt hpos2
    show g.initialPipeDistance / (g.UpdatePipeSpeed dt).pipeSpeed *
        (g.UpdatePipeSpeed dt).pipeSpeed = g.initialPipeDistance
    exact div_mul_cancel₀ _ hne
  · intro w h dg dj dpw dpg dps dpsi rate ms mghd godd pecd btw sc hs
    rfl

/-- Witness for C5 at the sample state: one tick of one second. -/
theorem c5_spawn_distance_invariant_witness :
    (sampleGame.UpdatePipeSpeed 1).pipeSpawnInterval =
        sampleGame.initialPipeDistance / (sampleGame.UpdatePipeSpeed 1).pipeSpeed ∧
    (sampleGame.UpdatePipeSpeed 1).pipeSpawnInterval * (sampleGame.UpdatePipeSpeed 1).pipeSpeed =
        sampleGame.initialPipeDistance ∧
    (sampleGame.UpdatePipeSpeed 1).initialPipeDistance = sampleGame.initialPipeDistance ∧
    (sampleGame.UpdatePipeSpeed 1).backgroundScrollSpeed =
        (sampleGame.UpdatePipeSpeed 1).pipeSpeed * (1 / 5) :=
  c5_spawn_distance_invariant.1 sampleGame 1 (by norm_num) (by decide) (by decide) (by decide)

/-- The collision phase never changes the score. -/
theorem collidePhase_score (g : Game) (p : Pipe) : (g.collidePhase p).score = g.score := by
  unfold Game.collidePhase Game.applyHit
  split_ifs <;> rfl

/-- The scoring phase never decreases the score. -/
theorem scorePhase_score_mono (g : Game) (p : Pipe) : g.score ≤ (g.scorePhase p).1.score := by
  unfold Game.scorePhase
  split_ifs with h <;> simp

/-- One pipe-loop iteration never decreases the score. -/
theorem pipeFrameStep_score_mono (g : Game) (dt : ℚ) (p : Pipe) :
    g.score ≤ (g.pipeFrameStep dt p).1.score := by
  unfold Game.pipeFrameStep
  dsimp only
  rw [collidePhase_score]
  exact scorePhase_score_mono g _

/-- The whole pipe loop never decreases the score. -/
theorem movePipesLoop_score_mono (g : Game) (dt : ℚ) (ps : List Pipe) :
    g.score ≤ (g.movePipesLoop dt ps).1.score := by
  induction ps generalizing g with
  | nil => exact le_refl _
  | cons p rest ih =>
      calc g.score ≤ (g.pipeFrameStep dt p).1.score := pipeFrameStep_score_mono g dt p
        _ ≤ (((g.pipeFrameStep dt p).1).movePipesLoop dt rest).1.score :=
            ih (g.pipeFrameStep dt p).1
        _ = (g.movePipesLoop dt (p :: rest)).1.score := rfl

/-- Claim C2: passing an unscored pipe (player strictly beyond its
moved right edge) bumps the score by exactly one and sets the scored
flag; a pipe already scored leaves the score unchanged; one loop
iteration never lowers the score, nor does the whole pipe loop. -/
theorem c2_score_once_per_pipe (g : Game) (dt : ℚ) (p : Pipe) :
    ((p.scored = false → g.playerX > p.x - g.pipeSpeed * dt + g.pipeWidth →
        (g.pipeFrameStep dt p).1.score = g.score + 1 ∧
        (g.pipeFrameStep dt p).2.scored = true) ∧
     (p.scored = true →
        (g.pipeFrameStep dt p).1.score = g.score ∧
        (g.pipeFrameStep dt p).2.scored = true) ∧
     g.score ≤ (g.pipeFrameStep dt p).1.score) ∧
    (∀ ps : List Pipe, g.score ≤ (g.movePipesLoop dt ps).1.score) := by
  refine ⟨⟨?_, ?_, pipeFrameStep_score_mono g dt p⟩,
    fun ps => movePipesLoop_score_mono g dt ps⟩
  · intro hsc hpass
    simp [Game.pipeFrameStep, collidePhase_score, Game.scorePhase, hsc, hpass]
  · intro hsc
    simp [Game.pipeFrameStep, collidePhase_score, Game.scorePhase, hsc]

/-- Witness for C2: at the sample state, a pipe at x equal 40 is passed
after one second and scores exactly once. -/
theorem c2_score_once_per_pipe_witness :
    (sampleGame.pipeFrameStep 1 ⟨40, 300, false⟩).1.score = sampleGame.score + 1 ∧
    (sampleGame.pipeFrameStep 1 ⟨40, 300, false⟩).2.scored = true :=
  (c2_score_once_per_pipe sampleGame 1 ⟨40, 300, false⟩).1.1 rfl (by norm_num [sampleGame])

/-- Claim C4: with a bounded random source, a gap center generated from
a previous in-bounds pipe lies in the clamped window, keeps the opening
on screen, and moves at most maxGapHeightDifference from the previous
center; with no previous pipe it is the exact screen midpoint (which is
on screen whenever the gap fits the screen). -/
theorem c4_gap_center_bounds (pipes : List Pipe) (h gap mgd : ℚ) (rand : ℚ → ℚ → ℚ)
    (hrand : ∀ lo hi, lo ≤ hi → lo ≤ rand lo hi ∧ rand lo hi ≤ hi)
    (hmgd : 0 ≤ mgd) (hgap : gap ≤ h) :
    (∀ prev : Pipe, pipes.getLast? = some prev →
        gap / 2 ≤ prev.gapCenter → prev.gapCenter ≤ h - gap / 2 →
        (max (gap / 2) (prev.gapCenter - mgd) ≤ newGapCenter pipes h gap mgd rand ∧
         newGapCenter pipes h gap mgd rand ≤ min (h - gap / 2) (prev.gapCenter + mgd)) ∧
        0 ≤ newGapCenter pipes h gap mgd rand - gap / 2 ∧
        newGapCenter pipes h gap mgd rand + gap / 2 ≤ h ∧
        abs (newGapCenter pipes h gap mgd rand - prev.gapCenter) ≤ mgd) ∧
    (pipes.getLast? = none →
        newGapCenter pipes h gap mgd rand = h / 2 ∧
        0 ≤ h / 2 - gap / 2 ∧ h / 2 + gap / 2 ≤ h) := by
  constructor
  · intro prev hlast hlo hhi
    have hle : max (gap / 2) (prev.gapCenter - mgd) ≤
        min (h - gap / 2) (prev.gapCenter + mgd) :=
      max_le (le_min (by linarith) (by linarith)) (le_min (by linarith) (by linarith))
    have hc : newGapCenter pipes h gap mgd rand =
        rand (max (gap / 2) (prev.gapCenter - mgd))
             (min (h - gap / 2) (prev.gapCenter + mgd)) := by
      unfold newGapCenter
      rw [hlast]
    obtain ⟨h1, h2⟩ := hrand _ _ hle
    rw [hc]
    refine ⟨⟨h1, h2⟩, ?_, ?_, ?_⟩
    · have := le_trans (le_max_left (gap / 2) (prev.gapCenter - mgd)) h1
      linarith
    · have := le_trans h2 (min_le_left (h - gap / 2) (prev.gapCenter + mgd))
      linarith
    · have hlow := le_trans (le_max_right (gap / 2) (prev.gapCenter - mgd)) h1
      have hhigh := le_trans h2 (min_le_right (h - gap / 2) (prev.gapCenter + mgd))
      rw [abs_le]
      constructor <;> linarith
  · intro hnone
    have hc : newGapCenter pipes h gap mgd rand = h / 2 := by
      unfold newGapCenter
      rw [hnone]
    exact ⟨hc, by linarith, by linarith⟩

/-- Witness for C4: previous pipe gap center 300 on a 600-high screen
with gap 200 and max delta 150, using the leftmost admissible draw. -/
theorem c4_gap_center_bounds_witness :
    (max ((200 : ℚ) / 2) (300 - 150) ≤
        newGapCenter [⟨5, 300, false⟩] 600 200 150 (fun lo _ => lo) ∧
     newGapCenter [⟨5, 300, false⟩] 600 200 150 (fun lo _ => lo) ≤
        min (600 - 200 / 2) (300 + 150)) ∧
    0 ≤ newGapCenter [⟨5, 300, false⟩] 600 200 150 (fun lo _ => lo) - 200 / 2 ∧
    newGapCenter [⟨5, 300, false⟩] 600 200 150 (fun lo _ => lo) + 200 / 2 ≤ 600 ∧
    abs (newGapCenter [⟨5, 300, false⟩] 600 200 150 (fun lo _ => lo) - 300) ≤ 150 :=
  (c4_gap_center_bounds [⟨5, 300, false⟩] 600 200 150 (fun lo _ => lo)
      (fun lo _ hle => ⟨le_refl lo, hle⟩) (by norm_num) (by norm_num)).1
    ⟨5, 300, false⟩ rfl (by norm_num) (by norm_num)

/-- The fullscreen toggle leaves the simulation fields alone. -/
theorem uiFullscreen_frozen (g : Game) (inp : Input) :
    (g.uiFullscreen inp).frozenFields = g.frozenFields := by
  unfold Game.uiFullscreen Game.frozenFields
  split_ifs <;> rfl

/-- The first-start dismissal leaves the simulation fields alone. -/
theorem uiFirstStart_frozen (g : Game) (inp : Input) :
    (g.uiFirstStart inp).frozenFields = g.frozenFields := by
  unfold Game.uiFirstStart Game.frozenFields
  split_ifs <;> rfl

/-- The exit-confirmation menu leaves the simulation fields alone. -/
theorem uiExitMenu_frozen (g : Game) (inp : Input) :
    (g.uiExitMenu inp).frozenFields = g.frozenFields := by
  unfold Game.uiExitMenu Game.frozenFields
  split_ifs <;> rfl

/-- Focus tracking leaves the simulation fields alone. -/
theorem uiFocus_frozen (g : Game) (inp : Input) :
    (g.uiFocus inp).frozenFields = g.frozenFields := rfl

/-- The pause toggle leaves the simulation fields alone. -/
theorem uiPauseToggle_frozen (g : Game) (inp : Input) :
    (g.uiPauseToggle inp).frozenFields = g.frozenFields := by
  unfold Game.uiPauseToggle Game.frozenFields
  split_ifs <;> rfl

/-- The mobile tap pause block leaves the simulation fields alone. -/
theorem uiMobilePause_frozen (g : Game) (inp : Input) :
    ((g.uiMobilePause inp).1).frozenFields = g.frozenFields := by
  unfold Game.uiMobilePause Game.frozenFields
  split_ifs <;> rfl

/-- Every branch of the UI pass leaves the simulation fields alone. -/
theorem updateUI_frozen (g : Game) (inp : Input) :
    ((g.UpdateUI inp).1).frozenFields = g.frozenFields := by
  unfold Game.UpdateUI
  split_ifs <;>
    first
      | rfl
      | rw [uiMobilePause_frozen, uiPauseToggle_frozen, uiFocus_frozen, uiExitMenu_frozen,
          uiFirstStart_frozen, uiFullscreen_frozen]

/-- Component form of updateUI_frozen. -/
theorem updateUI_fields (g : Game) (inp : Input) :
    (g.UpdateUI inp).1.playerX = g.playerX ∧ (g.UpdateUI inp).1.playerY = g.playerY ∧
    (g.UpdateUI inp).1.playerVelocity = g.playerVelocity ∧
    (g.UpdateUI inp).1.pipes = g.pipes ∧ (g.UpdateUI inp).1.score = g.score ∧
    (g.UpdateUI inp).1.pipeSpeed = g.pipeSpeed ∧
    (g.UpdateUI inp).1.highScore = g.highScore ∧
    (g.UpdateUI inp).1.gameOver = g.gameOver := by
  have h := updateUI_frozen g inp
  simp only [Game.frozenFields, Prod.mk.injEq] at h
  exact ⟨h.1, h.2.1, h.2.2.1, h.2.2.2.1, h.2.2.2.2.1, h.2.2.2.2.2.1,
    h.2.2.2.2.2.2.1, h.2.2.2.2.2.2.2⟩

/-- A collision hit keeps the score/high-score invariant: the score is
untouched and the high score is raised to at least the score. -/
theorem scoreInv_applyHit (g : Game) (h : scoreInv g) : scoreInv g.applyHit := by
  obtain ⟨h0, h1⟩ := h
  unfold Game.applyHit scoreInv
  split_ifs <;> constructor <;> try simp
  all_goals omega

/-- The UI pass keeps the score/high-score invariant. -/
theorem scoreInv_updateUI (g : Game) (inp : Input) (h : scoreInv g) :
    scoreInv (g.UpdateUI inp).1 := by
  have hf := updateUI_fields g inp
  unfold scoreInv at h ⊢
  rw [hf.2.2.2.2.1, hf.2.2.2.2.2.2.1]
  exact h

/-- HandleInput keeps the score/high-score invariant. -/
theorem scoreInv_handleInput (g : Game) (inp : Input) (h : scoreInv g) :
    scoreInv (g.HandleInput inp) := by
  obtain ⟨h0, h1⟩ := h
  unfold Game.HandleInput scoreInv
  try dsimp only
  split_ifs <;> constructor <;> try simp
  all_goals omega

/-- Boundary collision handling keeps the invariant. -/
theorem scoreInv_checkBoundaryStep (g : Game) (h : scoreInv g) :
    scoreInv g.checkBoundaryStep := by
  obtain ⟨h0, h1⟩ := h
  unfold Game.checkBoundaryStep Game.applyHit scoreInv
  try dsimp only
  split_ifs <;> constructor <;> try simp
  all_goals omega

/-- Pipe spawning keeps the invariant. -/
theorem scoreInv_spawnStep (g : Game) (dt : ℚ) (rand : ℚ → ℚ → ℚ) (h : scoreInv g) :
    scoreInv (g.spawnStep dt rand) := by
  obtain ⟨h0, h1⟩ := h
  unfold Game.spawnStep scoreInv
  try dsimp only
  split_ifs <;> constructor <;> try simp
  all_goals omega

/-- The scoring phase keeps the invariant: if it scores, both the score
and (when beaten) the high score go up together. -/
theorem scoreInv_scorePhase (g : Game) (p : Pipe) (h : scoreInv g) :
    scoreInv (g.scorePhase p).1 := by
  obtain ⟨h0, h1⟩ := h
  unfold Game.scorePhase scoreInv
  try dsimp only
  split_ifs <;> constructor <;> try simp
  all_goals omega

/-- The collision phase keeps the invariant. -/
theorem scoreInv_collidePhase (g : Game) (p : Pipe) (h : scoreInv g) :
    scoreInv (g.collidePhase p) := by
  obtain ⟨h0, h1⟩ := h
  unfold Game.collidePhase Game.applyHit scoreInv
  try dsimp only
  split_ifs <;> constructor <;> try simp
  all_goals omega

/-- One pipe-loop iteration keeps the invariant. -/
theorem scoreInv_pipeFrameStep (g : Game) (dt : ℚ) (p : Pipe) (h : scoreInv g) :
    scoreInv (g.pipeFrameStep dt p).1 :=
  scoreInv_collidePhase _ _ (scoreInv_scorePhase g _ h)

/-- The whole pipe loop keeps the invariant. -/
theorem scoreInv_movePipesLoop (g : Game) (dt : ℚ) (ps : List Pipe) (h : scoreInv g) :
    scoreInv (g.movePipesLoop dt ps).1 := by
  induction ps generalizing g with
  | nil => exact h
  | cons p rest ih => exact ih _ (scoreInv_pipeFrameStep g dt p h)

/-- The eyes-closed timer decay keeps the invariant. -/
theorem scoreInv_eyesStep (g : Game) (dt : ℚ) (h : scoreInv g) : scoreInv (g.eyesStep dt) := by
  obtain ⟨h0, h1⟩ := h
  unfold Game.eyesStep scoreInv
  try dsimp only
  split_ifs <;> constructor <;> try simp
  all_goals omega

/-- The background scroll keeps the invariant. -/
theorem scoreInv_scrollStep (g : Game) (dt : ℚ) (h : scoreInv g) :
    scoreInv (g.scrollStep dt) := h

/-- The whole running-only simulation block keeps the invariant. -/
theorem scoreInv_simStep (g : Game) (inp : Input) (dt : ℚ) (h : scoreInv g) :
    scoreInv (g.simStep inp dt) := by
  unfold Game.simStep
  try dsimp only
  exact scoreInv_eyesStep _ dt
    (scoreInv_movePipesLoop _ dt _
      (scoreInv_spawnStep _ dt inp.rand
        (scoreInv_checkBoundaryStep _
          (scoreInv_handleInput g inp h))))

/-- Reset keeps the invariant: the score becomes zero and the high
score is untouched. -/
theorem scoreInv_reset (g : Game) (scale : ℚ) (h : scoreInv g) : scoreInv (g.Reset scale) := by
  obtain ⟨h0, h1⟩ := h
  unfold Game.Reset Game.InitGame scoreInv
  try dsimp only
  split_ifs <;> constructor <;> try simp
  all_goals omega

/-- The game-over restart branch keeps the invariant. -/
theorem scoreInv_gameOverRestart (g : Game) (inp : Input) (dt : ℚ) (h : scoreInv g) :
    scoreInv (g.gameOverRestart inp dt) := by
  obtain ⟨h0, h1⟩ := h
  unfold Game.gameOverRestart
  try dsimp only
  split_ifs <;> first | exact ⟨h0, h1⟩ | exact scoreInv_reset _ _ ⟨h0, h1⟩

/-- A whole frame update keeps the score/high-score invariant. -/
theorem scoreInv_update (g : Game) (inp : Input) (dt : ℚ) (h : scoreInv g) :
    scoreInv (g.Update inp dt) := by
  unfold Game.Update
  by_cases hdt : dt = 0
  · rw [if_pos hdt]
    exact h
  · rw [if_neg hdt]
    dsimp only
    by_cases hskip :
        (Game.UpdateUI { g with screenScale := inp.screenScale } inp).2 = true
    · rw [if_pos hskip]
      exact scoreInv_updateUI _ inp h
    · rw [if_neg hskip]
      by_cases hrun :
          ((Game.UpdateUI { g with screenScale := inp.screenScale } inp).1).runningState = true
      · simp only [if_pos hrun]
        exact scoreInv_gameOverRestart _ inp dt
          (scoreInv_simStep _ inp dt
            (scoreInv_scrollStep _ dt (scoreInv_updateUI _ inp h)))
      · simp only [if_neg hrun]
        exact scoreInv_gameOverRestart _ inp dt (scoreInv_updateUI _ inp h)

/-- Claim C10: a frame update keeps the high score at or above the
score; combined with nonnegativity of the score this invariant is
preserved by every per-frame update, at scoring events, at collisions,
and across restarts. -/
theorem c10_highscore_ge_score (g : Game) (inp : Input) (dt : ℚ)
    (h0 : 0 ≤ g.score) (h1 : g.score ≤ g.highScore) :
    0 ≤ (g.Update inp dt).score ∧
    (g.Update inp dt).score ≤ (g.Update inp dt).highScore :=
  scoreInv_update g inp dt ⟨h0, h1⟩

/-- Witness for C10 at the sample state with an idle frame. -/
theorem c10_highscore_ge_score_witness :
    0 ≤ (sampleGame.Update idleInput 1).score ∧
    (sampleGame.Update idleInput 1).score ≤ (sampleGame.Update idleInput 1).highScore :=
  c10_highscore_ge_score sampleGame idleInput 1 (by norm_num [sampleGame])
    (by norm_num [sampleGame])

/-- When the game-over state accepts no restart input, the restart
branch leaves the simulation fields alone. -/
theorem gameOverRestart_frozen (g : Game) (inp : Input) (dt : ℚ)
    (hnr : g.gameOver = true → (inp.isMobile = true → inp.tap = false) ∧
        (inp.isMobile = false → inp.enterPressed = false)) :
    (g.gameOverRestart inp dt).frozenFields = g.frozenFields := by
  unfold Game.gameOverRestart
  try dsimp only
  by_cases hg : g.gameOver = true
  · have hres := hnr hg
    split_ifs <;> first
      | rfl
      | (exfalso
         rcases hres with ⟨hm, hd⟩
         simp_all)
  · split_ifs <;> rfl

/-- Claim C6 (amended): when the state is still blocked after the UI
pass has processed menu input (some blocking flag set, so not Running),
and no restart fires while game over, the frame update leaves player
position and velocity, the pipe list, the score, and the pipe speed
unchanged. -/
theorem c6_blocked_simulation_frozen (g : Game) (inp : Input) (dt : ℚ)
    (hblocked :
      ((Game.UpdateUI { g with screenScale := inp.screenScale } inp).1).runningState = false)
    (hnorestart :
      ((Game.UpdateUI { g with screenScale := inp.screenScale } inp).1).gameOver = true →
        (inp.isMobile = true → inp.tap = false) ∧
        (inp.isMobile = false → inp.enterPressed = false)) :
    (g.Update inp dt).playerX = g.playerX ∧
    (g.Update inp dt).playerY = g.playerY ∧
    (g.Update inp dt).playerVelocity = g.playerVelocity ∧
    (g.Update inp dt).pipes = g.pipes ∧
    (g.Update inp dt).score = g.score ∧
    (g.Update inp dt).pipeSpeed = g.pipeSpeed := by
  have hfields : (g.Update inp dt).frozenFields = g.frozenFields := by
    unfold Game.Update
    by_cases hdt : dt = 0
    · rw [if_pos hdt]
    · rw [if_neg hdt]
      try dsimp only
      by_cases hskip :
          (Game.UpdateUI { g with screenScale := inp.screenScale } inp).2 = true
      · rw [if_pos hskip]
        exact updateUI_frozen _ inp
      · rw [if_neg hskip]
        have hrun :
            ¬ ((Game.UpdateUI { g with screenScale := inp.screenScale } inp).1).runningState
              = true := by
          rw [hblocked]
          simp
        simp only [if_neg hrun]
        rw [gameOverRestart_frozen _ inp dt hnorestart]
        exact updateUI_frozen _ inp
  simp only [Game.frozenFields, Prod.mk.injEq] at hfields
  exact ⟨hfields.1, hfields.2.1, hfields.2.2.1, hfields.2.2.2.1, hfields.2.2.2.2.1,
    hfields.2.2.2.2.2.1⟩

/-- Counterexample for C6 as frozen: with the pause flag set (a
blocking state), a frame whose input presses the pause key unpauses and
advances physics in the same frame, so the simulation state changes. -/
theorem c6_counterexample :
    pausedGame.paused = true ∧
    (pausedGame.Update unpauseInput 1).playerVelocity ≠ pausedGame.playerVelocity := by
  constructor
  · rfl
  · norm_num [Game.Update, Game.UpdateUI, Game.uiFullscreen, Game.uiFirstStart,
      Game.uiExitMenu, Game.uiFocus, Game.uiPauseToggle, Game.uiMobilePause,
      Game.runningState, Game.scrollStep, Game.simStep, Game.HandleInput,
      Game.UpdatePipeSpeed, Game.physicsStep, Game.checkBoundaryStep,
      Game.boundaryCollision, Game.collisionBoxHeight, Game.collisionBoxWidth,
      Game.applyHit, Game.spawnStep, Game.movePipesLoop, Game.prunePipes,
      Game.eyesStep, Game.gameOverRestart, pausedGame, sampleGame, unpauseInput,
      idleInput, newGapCenter]

/-- Witness for the amended C6: a paused frame with idle input stays
frozen. -/
theorem c6_blocked_simulation_frozen_witness :
    (pausedGame.Update idleInput 1).playerX = pausedGame.playerX ∧
    (pausedGame.Update idleInput 1).playerY = pausedGame.playerY ∧
    (pausedGame.Update idleInput 1).playerVelocity = pausedGame.playerVelocity ∧
    (pausedGame.Update idleInput 1).pipes = pausedGame.pipes ∧
    (pausedGame.Update idleInput 1).score = pausedGame.score ∧
    (pausedGame.Update idleInput 1).pipeSpeed = pausedGame.pipeSpeed :=
  c6_blocked_simulation_frozen pausedGame idleInput 1
    (by
      norm_num [Game.UpdateUI, Game.uiFullscreen, Game.uiFirstStart, Game.uiExitMenu,
        Game.uiFocus, Game.uiPauseToggle, Game.uiMobilePause, Game.runningState,
        pausedGame, sampleGame, idleInput])
    (by
      norm_num [Game.UpdateUI, Game.uiFullscreen, Game.uiFirstStart, Game.uiExitMenu,
        Game.uiFocus, Game.uiPauseToggle, Game.uiMobilePause,
        pausedGame, sampleGame, idleInput])

/-- Claim C7 (amended): from any state whose first-start flag is
already clear (always the case when Reset is reachable, since it is
invoked only from game over), Reset zeroes the score, restores the base
speed, clears the pipes, restores the player's run-start position and
velocity, clears the four in-game mode flags so the state is Running,
and leaves the high score and the manual music preference untouched. -/
theorem c7_reset_state (g : Game) (scale : ℚ) (hfs : g.firstTimeGameStart = false) :
    (g.Reset scale).score = 0 ∧
    (g.Reset scale).pipeSpeed = g.basePipeSpeed ∧
    (g.Reset scale).pipes = [] ∧
    (g.Reset scale).playerX = g.width / 4 ∧
    (g.Reset scale).playerY = g.height / 2 ∧
    (g.Reset scale).playerVelocity = 0 ∧
    (g.Reset scale).runningState = true ∧
    (g.Reset scale).highScore = g.highScore ∧
    (g.Reset scale).musicManuallyDisabled = g.musicManuallyDisabled := by
  unfold Game.Reset Game.InitGame Game.runningState
  try dsimp only
  split_ifs <;> simp [hfs]

/-- Counterexample for C7 as frozen: Reset does not clear the
first-start flag, so from a state with that flag set the result is not
Running. -/
theorem c7_counterexample :
    freshGame.firstTimeGameStart = true ∧
    (freshGame.Reset 1).firstTimeGameStart = true ∧
    (freshGame.Reset 1).runningState = false := by
  refine ⟨rfl, ?_, ?_⟩ <;>
    norm_num [Game.Reset, Game.InitGame, Game.runningState, freshGame, mkGame]

/-- Witness for the amended C7 at the sample state. -/
theorem c7_reset_state_witness :
    (sampleGame.Reset 1).score = 0 ∧
    (sampleGame.Reset 1).pipeSpeed = sampleGame.basePipeSpeed ∧
    (sampleGame.Reset 1).pipes = [] ∧
    (sampleGame.Reset 1).playerX = sampleGame.width / 4 ∧
    (sampleGame.Reset 1).playerY = sampleGame.height / 2 ∧
    (sampleGame.Reset 1).playerVelocity = 0 ∧
    (sampleGame.Reset 1).runningState = true ∧
    (sampleGame.Reset 1).highScore = sampleGame.highScore ∧
    (sampleGame.Reset 1).musicManuallyDisabled = sampleGame.musicManuallyDisabled :=
  c7_reset_state sampleGame 1 rfl

/-- Claim C9 (amended): the M-key music toggle acts inside HandleInput,
which runs only in the Running state; there it flips playback and
records the sticky manually-disabled preference, and Reset never
re-enables music that was manually disabled. -/
theorem c9_music_toggle_running_only :
    (∀ (g : Game) (inp : Input), inp.mPressed = true →
       (g.HandleInput inp).musicPlaying = !g.musicPlaying ∧
       (g.HandleInput inp).musicManuallyDisabled = g.musicPlaying) ∧
    (∀ (g : Game) (scale : ℚ), g.musicManuallyDisabled = true →
       (g.Reset scale).musicPlaying = g.musicPlaying ∧
       (g.Reset scale).musicManuallyDisabled = true) := by
  constructor
  · intro g inp hM
    unfold Game.HandleInput
    try dsimp only
    split_ifs <;> simp_all
  · intro g scale hMD
    unfold Game.Reset Game.InitGame
    try dsimp only
    split_ifs <;> simp_all

/-- Counterexample for C9 as frozen: in the paused state the music
toggle key is ignored, because HandleInput only runs while Running. -/
theorem c9_counterexample :
    pausedGame.paused = true ∧ mInput.mPressed = true ∧
    (pausedGame.Update mInput 1).musicPlaying = pausedGame.musicPlaying := by
  refine ⟨rfl, rfl, ?_⟩
  norm_num [Game.Update, Game.UpdateUI, Game.uiFullscreen, Game.uiFirstStart,
    Game.uiExitMenu, Game.uiFocus, Game.uiPauseToggle, Game.uiMobilePause,
    Game.runningState, Game.scrollStep, Game.simStep, Game.HandleInput,
    Game.UpdatePipeSpeed, Game.physicsStep, Game.checkBoundaryStep,
    Game.boundaryCollision, Game.collisionBoxHeight, Game.collisionBoxWidth,
    Game.applyHit, Game.spawnStep, Game.movePipesLoop, Game.prunePipes,
    Game.eyesStep, Game.gameOverRestart, pausedGame, sampleGame, mInput,
    idleInput, newGapCenter]

/-- Witness for the amended C9 at the sample state. -/
theorem c9_music_toggle_running_only_witness :
    (sampleGame.HandleInput mInput).musicPlaying = !sampleGame.musicPlaying ∧
    (sampleGame.HandleInput mInput).musicManuallyDisabled = sampleGame.musicPlaying :=
  c9_music_toggle_running_only.1 sampleGame mInput rfl
